import Mathlib

/-!
Shallow embedding of `src/Dataset/download_multi-view_data.py`, a utility
script that mirrors a Google Drive shared folder into a local directory and
reports the `.mat` files found there.

The script's observable behaviour is modelled as a pure function over:
  * a `World` (does the output directory exist, and which file names it holds),
  * an `Env` describing the externally determined outcomes (is the `gdown`
    module importable; does `gdown.download_folder` return or raise; does
    `os.listdir` return or raise).
Console output is modelled as a trace of `LogEvent`s, one constructor per
distinct message site in the source; `renderText` / `renderLevel` recover the
exact text and severity each site emits, with Python f-string interpolation
rendered as string concatenation.  The result record also instruments the
events a test harness would observe: the calls made to the download delegate,
whether `os.makedirs` ran, the exit code requested via `sys.exit`, and any
exception propagated out of `download_datasets`.
-/

namespace MultiViewDownload

/-- Severity of a console line: `logging.info/error/warning` or a bare `print`. -/
inductive LogLevel where
  | info
  | error
  | warning
  | stdout
  deriving DecidableEq, Repr

/-- One console message site of the script, with the data interpolated there.
Each constructor corresponds to exactly one `logging.*` or `print` call in the
source; `renderText` gives the literal text. -/
inductive LogEvent where
  /-- `logging.error("Required dependency 'gdown' is not installed.")`, line 19. -/
  | errorMissingDependency
  /-- `print("\nFix: Please install it using the following command:")`, line 20. -/
  | printFixHeader
  /-- `print("    pip install gdown\n")`, line 21. -/
  | printPipInstall
  /-- `logging.info(f"Initialized local data directory: {output_dir}")`, line 38. -/
  | infoInitializedDir (dir : String)
  /-- `logging.info("Connecting to Google Drive remote storage...")`, line 40. -/
  | infoConnecting
  /-- `logging.info(f"Remote URL: {folder_url}")`, line 41. -/
  | infoRemoteUrl (url : String)
  /-- `logging.info("=" * 60)`, lines 54 and 61. -/
  | infoSeparator
  /-- `logging.info("Dataset synchronization complete!")`, line 55. -/
  | infoSyncComplete
  /-- `logging.info(f"Local Storage Path: {os.path.abspath(output_dir)}")`, line 56. -/
  | infoLocalStoragePath (path : String)
  /-- `logging.info(f"Available Datasets ({len(mat_files)}): {', '.join(mat_files)}")`, line 60. -/
  | infoAvailableDatasets (count : Nat) (names : List String)
  /-- `logging.error(f"Synchronization failed: {e}")`, line 64. -/
  | errorSyncFailed (msg : String)
  /-- `logging.warning("Check your internet connection and verify that the GDrive folder is public.")`, line 65. -/
  | warningCheckConnection
  deriving DecidableEq, Repr

/-- The literal console text of each message site.  `os.path.abspath` is kept
abstract: the model stores the path the script passed to it. -/
def renderText : LogEvent → String
  | LogEvent.errorMissingDependency => "Required dependency 'gdown' is not installed."
  | LogEvent.printFixHeader => "\nFix: Please install it using the following command:"
  | LogEvent.printPipInstall => "    pip install gdown\n"
  | LogEvent.infoInitializedDir dir => "Initialized local data directory: " ++ dir
  | LogEvent.infoConnecting => "Connecting to Google Drive remote storage..."
  | LogEvent.infoRemoteUrl url => "Remote URL: " ++ url
  | LogEvent.infoSeparator => String.pushn "" '=' 60
  | LogEvent.infoSyncComplete => "Dataset synchronization complete!"
  | LogEvent.infoLocalStoragePath path => "Local Storage Path: " ++ path
  | LogEvent.infoAvailableDatasets count names =>
      "Available Datasets (" ++ toString count ++ "): " ++ String.intercalate ", " names
  | LogEvent.errorSyncFailed msg => "Synchronization failed: " ++ msg
  | LogEvent.warningCheckConnection =>
      "Check your internet connection and verify that the GDrive folder is public."

/-- The severity of each message site. -/
def renderLevel : LogEvent → LogLevel
  | LogEvent.errorMissingDependency => LogLevel.error
  | LogEvent.printFixHeader => LogLevel.stdout
  | LogEvent.printPipInstall => LogLevel.stdout
  | LogEvent.infoInitializedDir _ => LogLevel.info
  | LogEvent.infoConnecting => LogLevel.info
  | LogEvent.infoRemoteUrl _ => LogLevel.info
  | LogEvent.infoSeparator => LogLevel.info
  | LogEvent.infoSyncComplete => LogLevel.info
  | LogEvent.infoLocalStoragePath _ => LogLevel.info
  | LogEvent.infoAvailableDatasets _ _ => LogLevel.info
  | LogEvent.errorSyncFailed _ => LogLevel.error
  | LogEvent.warningCheckConnection => LogLevel.warning

/-- Handle standing for the imported `gdown` module. -/
inductive Gdown where
  | handle
  deriving DecidableEq, Repr

/-- State of the local filesystem at the output path: whether the output
directory exists and, when it does, the names of its entries. -/
structure World where
  dirExists : Bool
  files : List String
  deriving DecidableEq, Repr

/-- Outcome of the call to `gdown.download_folder`: it either returns (leaving
`resultFiles` as the directory's entries) or raises an exception after having
placed `partialFiles` there. -/
inductive SyncOutcome where
  | ok (resultFiles : List String)
  | raise (msg : String) (partialFiles : List String)
  deriving DecidableEq, Repr

/-- Outcome of the call to `os.listdir`: it either returns the directory's
entries or raises. -/
inductive ListOutcome where
  | ok
  | raise (msg : String)
  deriving DecidableEq, Repr

/-- Externally determined behaviour of one run: whether `import gdown`
succeeds, and how the two fallible calls inside the `try` block behave. -/
structure Env where
  gdownAvailable : Bool
  sync : SyncOutcome
  listdir : ListOutcome
  deriving DecidableEq, Repr

/-- One invocation of the download delegate, with the keyword arguments the
script passes: `gdown.download_folder(url=…, output=…, quiet=False,
remaining_ok=True)`. -/
structure FolderCall where
  url : String
  output : String
  quiet : Bool
  remaining_ok : Bool
  deriving DecidableEq, Repr

/-- Observable outcome of a run: final filesystem state, console trace,
delegate calls made, whether `os.makedirs` ran, the exit code passed to
`sys.exit` (if any), and an exception propagated to the caller (if any). -/
structure RunResult where
  world : World
  logs : List LogEvent
  calls : List FolderCall
  makedirsCalled : Bool
  exitCode : Option Nat
  raised : Option String
  deriving DecidableEq, Repr

/-- `check_dependencies` (source lines 10-22): try `import gdown`; on success
return the module handle; on `ImportError` log an error, print the install
hint and call `sys.exit(1)`.  The returned pair is the console trace together
with either the exit code or the handle. -/
def check_dependencies (gdownAvailable : Bool) : List LogEvent × Except Nat Gdown :=
  if gdownAvailable then
    ([], Except.ok Gdown.handle)
  else
    ([LogEvent.errorMissingDependency, LogEvent.printFixHeader, LogEvent.printPipInstall],
     Except.error 1)

/-- Result of the directory-preparation step (source lines 36-38). -/
structure PrepResult where
  world : World
  logs : List LogEvent
  makedirsCalled : Bool
  deriving DecidableEq, Repr

/-- Source lines 36-38: `if not os.path.exists(output_dir): os.makedirs(…);
logging.info(…)`.  When the directory exists nothing runs; otherwise
`os.makedirs` creates it empty and the initialisation message is logged. -/
def prepare_dir (output_dir : String) (w : World) : PrepResult :=
  if w.dirExists then
    { world := w, logs := [], makedirsCalled := false }
  else
    { world := { dirExists := true, files := [] },
      logs := [LogEvent.infoInitializedDir output_dir],
      makedirsCalled := true }

/-- Python's `str.endswith`: a case-sensitive suffix test on the characters. -/
def endswith (s suffix : String) : Bool :=
  suffix.data.isSuffixOf s.data

/-- The audit filter of source line 59:
`[f for f in os.listdir(output_dir) if f.endswith('.mat')]`. -/
def audit_mat_files (entries : List String) : List String :=
  entries.filter (fun f => endswith f ".mat")

/-- The two messages of the `except` clause, source lines 63-65. -/
def syncFailureLogs (msg : String) : List LogEvent :=
  [LogEvent.errorSyncFailed msg, LogEvent.warningCheckConnection]

/-- `download_datasets` (source lines 25-65): dependency check, directory
preparation, connection banner, then the `try` block — the delegate call and,
still inside the same `try`, the verification banner and the `.mat` audit.
Any exception raised by the delegate or by `os.listdir` lands in the `except`
clause, which logs and returns normally. -/
def download_datasets (folder_url output_dir : String) (env : Env) (w : World) : RunResult :=
  let dep := check_dependencies env.gdownAvailable
  match dep.2 with
  | Except.error n =>
      { world := w, logs := dep.1, calls := [], makedirsCalled := false,
        exitCode := some n, raised := none }
  | Except.ok _gdown =>
      let prep := prepare_dir output_dir w
      let preLogs := dep.1 ++ prep.logs ++
        [LogEvent.infoConnecting, LogEvent.infoRemoteUrl folder_url]
      let call : FolderCall :=
        { url := folder_url, output := output_dir, quiet := false, remaining_ok := true }
      match env.sync with
      | SyncOutcome.raise msg partialFiles =>
          { world := { dirExists := true, files := partialFiles },
            logs := preLogs ++ syncFailureLogs msg,
            calls := [call], makedirsCalled := prep.makedirsCalled,
            exitCode := none, raised := none }
      | SyncOutcome.ok resultFiles =>
          let w2 : World := { dirExists := true, files := resultFiles }
          let okLogs := preLogs ++
            [LogEvent.infoSeparator, LogEvent.infoSyncComplete,
             LogEvent.infoLocalStoragePath output_dir]
          match env.listdir with
          | ListOutcome.raise msg =>
              { world := w2, logs := okLogs ++ syncFailureLogs msg,
                calls := [call], makedirsCalled := prep.makedirsCalled,
                exitCode := none, raised := none }
          | ListOutcome.ok =>
              let mat_files := audit_mat_files w2.files
              { world := w2,
                logs := okLogs ++
                  [LogEvent.infoAvailableDatasets mat_files.length mat_files,
                   LogEvent.infoSeparator],
                calls := [call], makedirsCalled := prep.makedirsCalled,
                exitCode := none, raised := none }

/-- Default of `--url` (source line 80). -/
def defaultUrl : String :=
  "https://drive.google.com/drive/folders/1TyiQNOuCH7zn0R55EfxM4mUwB05VsoMf?usp=drive_link"

/-- Default of `--output` (source line 87). -/
def defaultOutput : String := "./dataset"

/-- The parsed command line: the two options the parser defines. -/
structure Args where
  url : String
  output : String
  deriving DecidableEq, Repr

/-- Argument parsing (source lines 72-91): each option takes the supplied
string or its declared default. -/
def parse_args (urlArg outputArg : Option String) : Args :=
  { url := urlArg.getD defaultUrl, output := outputArg.getD defaultOutput }

/-- `main` (source lines 68-92): parse the command line and hand the parsed
values to `download_datasets`. -/
def main (urlArg outputArg : Option String) (env : Env) (w : World) : RunResult :=
  let args := parse_args urlArg outputArg
  download_datasets args.url args.output env w

/-- Whether a console event is the audit report of line 60. -/
def isAuditEvent : LogEvent → Bool
  | LogEvent.infoAvailableDatasets _ _ => true
  | _ => false

/-- Whether a console event is the directory-initialisation message of line 38. -/
def isInitEvent : LogEvent → Bool
  | LogEvent.infoInitializedDir _ => true
  | _ => false

/-- Whether `pat` occurs as a contiguous run inside `s`. -/
def listHasInfix (s pat : List Char) : Bool :=
  match s with
  | [] => pat.isEmpty
  | _ :: tail => pat.isPrefixOf s || listHasInfix tail pat

/-- Substring test used to state what the printed install hint contains. -/
def strContains (s pat : String) : Bool :=
  listHasInfix s.toList pat.toList

/-- C1 (counterexample): in a run where the sync delegate raises, the process
still exits with code 0, but the audit step does NOT execute — the `.mat`
listing of line 60 never appears in the console trace, because the audit sits
inside the same `try` block after the delegate call and control jumps straight
to the `except` clause. -/
theorem c1_sync_raise_skips_audit_counterexample :
    (download_datasets "u" "d"
        { gdownAvailable := true, sync := SyncOutcome.raise "timeout" [],
          listdir := ListOutcome.ok }
        { dirExists := true, files := [] }).exitCode = none ∧
    ((download_datasets "u" "d"
        { gdownAvailable := true, sync := SyncOutcome.raise "timeout" [],
          listdir := ListOutcome.ok }
        { dirExists := true, files := [] }).logs.any isAuditEvent) = false :=
  ⟨rfl, rfl⟩

/-- C1 (amended): whenever the sync delegate raises, the run still completes
normally (exit code 0, no exception propagated) and the failure is logged with
the remediation warning, but the audit step is skipped — no `.mat` count or
listing is reported. -/
theorem c1_sync_raise_completes_but_audit_skipped (url dir msg : String)
    (pf : List String) (ld : ListOutcome) (w : World) :
    (download_datasets url dir
        { gdownAvailable := true, sync := SyncOutcome.raise msg pf, listdir := ld } w).exitCode
      = none ∧
    (download_datasets url dir
        { gdownAvailable := true, sync := SyncOutcome.raise msg pf, listdir := ld } w).raised
      = none ∧
    ((download_datasets url dir
        { gdownAvailable := true, sync := SyncOutcome.raise msg pf, listdir := ld } w).logs.any
        isAuditEvent) = false ∧
    LogEvent.errorSyncFailed msg ∈
      (download_datasets url dir
        { gdownAvailable := true, sync := SyncOutcome.raise msg pf, listdir := ld } w).logs ∧
    LogEvent.warningCheckConnection ∈
      (download_datasets url dir
        { gdownAvailable := true, sync := SyncOutcome.raise msg pf, listdir := ld } w).logs := by
  rcases w with ⟨de, fs⟩
  cases de <;>
    simp [download_datasets, check_dependencies, prepare_dir, syncFailureLogs, isAuditEvent]

/-- C2: an exception raised by the download delegate is caught, the error and
the remediation warning are logged, and `download_datasets` returns normally
with no exit requested; whenever `gdown` is importable no exit code is ever
requested, and when it is not importable the process exits with code 1. -/
theorem c2_delegate_exception_caught_exit_zero (url dir msg : String) (pf : List String)
    (sync : SyncOutcome) (ld : ListOutcome) (w : World) :
    (download_datasets url dir
        { gdownAvailable := true, sync := SyncOutcome.raise msg pf, listdir := ld } w).raised
      = none ∧
    (download_datasets url dir
        { gdownAvailable := true, sync := SyncOutcome.raise msg pf, listdir := ld } w).exitCode
      = none ∧
    LogEvent.errorSyncFailed msg ∈
      (download_datasets url dir
        { gdownAvailable := true, sync := SyncOutcome.raise msg pf, listdir := ld } w).logs ∧
    LogEvent.warningCheckConnection ∈
      (download_datasets url dir
        { gdownAvailable := true, sync := SyncOutcome.raise msg pf, listdir := ld } w).logs ∧
    (download_datasets url dir
        { gdownAvailable := true, sync := sync, listdir := ld } w).exitCode = none ∧
    (download_datasets url dir
        { gdownAvailable := false, sync := sync, listdir := ld } w).exitCode = some 1 := by
  rcases w with ⟨de, fs⟩
  cases de <;> cases sync <;> cases ld <;>
    simp [download_datasets, check_dependencies, prepare_dir, syncFailureLogs]

/-- C3: when `gdown` cannot be imported, `check_dependencies` logs an error
naming `gdown`, prints the install command `pip install gdown`, and requests
process termination with exit code 1 (non-zero); when the import succeeds it
returns the module handle with no output and no exit. -/
theorem c3_missing_gdown_message_and_nonzero_exit :
    check_dependencies false =
      ([LogEvent.errorMissingDependency, LogEvent.printFixHeader, LogEvent.printPipInstall],
        Except.error 1) ∧
    strContains (renderText LogEvent.printPipInstall) "pip install gdown" = true ∧
    strContains (renderText LogEvent.errorMissingDependency) "gdown" = true ∧
    renderLevel LogEvent.printPipInstall = LogLevel.stdout ∧
    (1 : Nat) ≠ 0 ∧
    check_dependencies true = ([], Except.ok Gdown.handle) := by
  refine ⟨rfl, rfl, rfl, rfl, by decide, rfl⟩

/-- C4: on a run where the sync and the directory listing both succeed, the
audit reports exactly the entries whose name ends in `.mat`, with the reported
count equal to the number of such entries; the spec's worked examples evaluate
as stated, including the empty case. -/
theorem c4_audit_counts_and_lists_mat_files (url dir : String) (files : List String)
    (w : World) :
    LogEvent.infoAvailableDatasets (audit_mat_files files).length (audit_mat_files files) ∈
      (download_datasets url dir
        { gdownAvailable := true, sync := SyncOutcome.ok files, listdir := ListOutcome.ok }
        w).logs ∧
    (audit_mat_files files).length = files.countP (fun f => endswith f ".mat") ∧
    audit_mat_files ["a.mat", "b.mat", "notes.txt"] = ["a.mat", "b.mat"] ∧
    audit_mat_files ["notes.txt"] = [] ∧
    audit_mat_files [] = [] := by
  refine ⟨?_, ?_, rfl, rfl, rfl⟩
  · rcases w with ⟨de, fs⟩
    cases de <;> simp [download_datasets, check_dependencies, prepare_dir, audit_mat_files]
  · simp [audit_mat_files, List.countP_eq_length_filter]

/-- C5: directory preparation is idempotent — after it runs the directory
exists; when the directory already exists it changes nothing (pre-existing
files kept, no message, no `makedirs`); running it a second time is a no-op;
and after `download_datasets` (with the dependency available) the directory
exists. -/
theorem c5_directory_preparation_idempotent (url dir : String) (w : World)
    (sync : SyncOutcome) (ld : ListOutcome) :
    (prepare_dir dir w).world.dirExists = true ∧
    prepare_dir dir { dirExists := true, files := w.files } =
      { world := { dirExists := true, files := w.files }, logs := [],
        makedirsCalled := false } ∧
    prepare_dir dir (prepare_dir dir w).world =
      { world := (prepare_dir dir w).world, logs := [], makedirsCalled := false } ∧
    (download_datasets url dir
        { gdownAvailable := true, sync := sync, listdir := ld } w).world.dirExists = true := by
  rcases w with ⟨de, fs⟩
  cases de <;> cases sync <;> cases ld <;>
    simp [prepare_dir, download_datasets, check_dependencies]

/-- C6: on every run that reaches the sync step, the download delegate is
called exactly once, with the configured URL, the configured destination, and
`remaining_ok = true` (`quiet = false`); when the dependency check fails the
delegate is never called. -/
theorem c6_delegate_called_once_with_best_effort (url dir : String)
    (sync : SyncOutcome) (ld : ListOutcome) (w : World) :
    (download_datasets url dir
        { gdownAvailable := true, sync := sync, listdir := ld } w).calls =
      [{ url := url, output := dir, quiet := false, remaining_ok := true }] ∧
    (download_datasets url dir
        { gdownAvailable := false, sync := sync, listdir := ld } w).calls = [] := by
  rcases w with ⟨de, fs⟩
  cases de <;> cases sync <;> cases ld <;>
    simp [download_datasets, check_dependencies, prepare_dir]

/-- C7: the command line has the two options `--url` and `--output`; omitted,
they default to the fixed shared-folder address and to `./dataset`; supplied,
they are taken verbatim; and `main` passes the parsed values unchanged to
`download_datasets`. -/
theorem c7_cli_defaults_and_passthrough (u o : String) (uArg oArg : Option String)
    (env : Env) (w : World) :
    parse_args none none = { url := defaultUrl, output := defaultOutput } ∧
    defaultUrl =
      "https://drive.google.com/drive/folders/1TyiQNOuCH7zn0R55EfxM4mUwB05VsoMf?usp=drive_link" ∧
    defaultOutput = "./dataset" ∧
    parse_args (some u) (some o) = { url := u, output := o } ∧
    main uArg oArg env w =
      download_datasets (parse_args uArg oArg).url (parse_args uArg oArg).output env w :=
  ⟨rfl, rfl, rfl, rfl, rfl⟩

/-- C8: `download_datasets` never propagates an exception; in particular a
failure of `os.listdir` during the audit is caught by the same `try` block as
the sync call, logged as a synchronization failure with the connectivity
warning, and the function returns normally without reporting any `.mat`
listing. -/
theorem c8_try_block_wraps_sync_and_audit (url dir msg : String) (files : List String)
    (env : Env) (w : World) :
    (download_datasets url dir env w).raised = none ∧
    (download_datasets url dir
        { gdownAvailable := true, sync := SyncOutcome.ok files,
          listdir := ListOutcome.raise msg } w).raised = none ∧
    (download_datasets url dir
        { gdownAvailable := true, sync := SyncOutcome.ok files,
          listdir := ListOutcome.raise msg } w).exitCode = none ∧
    LogEvent.errorSyncFailed msg ∈
      (download_datasets url dir
        { gdownAvailable := true, sync := SyncOutcome.ok files,
          listdir := ListOutcome.raise msg } w).logs ∧
    LogEvent.warningCheckConnection ∈
      (download_datasets url dir
        { gdownAvailable := true, sync := SyncOutcome.ok files,
          listdir := ListOutcome.raise msg } w).logs ∧
    ((download_datasets url dir
        { gdownAvailable := true, sync := SyncOutcome.ok files,
          listdir := ListOutcome.raise msg } w).logs.any isAuditEvent) = false := by
  rcases w with ⟨de, fs⟩
  rcases env with ⟨ga, sync, ld⟩
  cases de <;> cases ga <;> cases sync <;> cases ld <;>
    simp [download_datasets, check_dependencies, prepare_dir, syncFailureLogs, isAuditEvent]

/-- C9: the audit filter is a case-sensitive suffix match on `.mat`: a name is
kept iff it ends with the exact lowercase string `.mat`; `A.MAT` and `x.Mat`
are excluded while a file named exactly `.mat` is included. -/
theorem c9_filter_is_case_sensitive_mat_suffix (entries : List String) (f : String) :
    (f ∈ audit_mat_files entries ↔ f ∈ entries ∧ endswith f ".mat" = true) ∧
    audit_mat_files ["A.MAT", "x.Mat", ".mat", "b.mat"] = [".mat", "b.mat"] ∧
    endswith "A.MAT" ".mat" = false ∧
    endswith "x.Mat" ".mat" = false ∧
    endswith ".mat" ".mat" = true := by
  refine ⟨?_, by decide, by decide, by decide, by decide⟩
  simp [audit_mat_files, List.mem_filter]

/-- C10: when the output directory already exists, the preparation step calls
no `makedirs`, emits no message, and leaves the world unchanged — in the whole
run no initialisation message appears; when the directory is absent,
`makedirs` runs and the initialisation message is emitted. -/
theorem c10_no_mutation_when_directory_exists (url dir : String) (files : List String)
    (sync : SyncOutcome) (ld : ListOutcome) :
    (prepare_dir dir { dirExists := true, files := files }).makedirsCalled = false ∧
    (prepare_dir dir { dirExists := true, files := files }).logs = [] ∧
    (prepare_dir dir { dirExists := true, files := files }).world =
      { dirExists := true, files := files } ∧
    (download_datasets url dir
        { gdownAvailable := true, sync := sync, listdir := ld }
        { dirExists := true, files := files }).makedirsCalled = false ∧
    ((download_datasets url dir
        { gdownAvailable := true, sync := sync, listdir := ld }
        { dirExists := true, files := files }).logs.any isInitEvent) = false ∧
    (prepare_dir dir { dirExists := false, files := files }).makedirsCalled = true ∧
    ((download_datasets url dir
        { gdownAvailable := true, sync := sync, listdir := ld }
        { dirExists := false, files := files }).logs.any isInitEvent) = true := by
  cases sync <;> cases ld <;>
    simp [download_datasets, check_dependencies, prepare_dir, syncFailureLogs, isInitEvent]

end MultiViewDownload
